import Mathlib

/-!
# Verification of the react-native-zoomable-view gesture/transform engine

A shallow embedding of `ReactNativeZoomableView` (`src/src/typings/index.ts`,
the component part of the file).  JavaScript numbers are modelled as
rationals (`ℚ`); optional / nullable props as `Option ℚ`; the component's
mutable instance fields as an explicit state record; started animations and
other deferred effects as a log of `Anim` events, since animations mutate the
state only later through animated-value listeners, never synchronously.

Helper modules of the repository that are imported by the component but whose
source is not part of this snapshot (`./helper`, `./animations`) are either
treated as abstract inputs of a gesture step (`calcGestureTouchDistance`,
`calcGestureCenterPoint` are computed from the raw native event and arrive
here as fields of `GestureInput`) or modelled from the spec where a concrete
function is needed (`applyPanBoundariesToOffset`,
`calcNewScaledOffsetForZoomCentering`).
-/

/-- 2D vector, from `Vec2D` in the typings. -/
structure Vec2D where
  x : ℚ
  y : ℚ
deriving DecidableEq, Repr

/-- The two gesture kinds the component distinguishes
(`gestureType: 'pinch' | 'shift' | null`). -/
inductive GestureType where
  | pinch
  | shift
deriving DecidableEq, Repr

/-- The two offset axes (`axis: 'x' | 'y'` in `__setOffset`). -/
inductive Axis where
  | x
  | y
deriving DecidableEq, Repr

/-- Component props relevant to the gesture engine.  Props that have a
non-null default in `defaultProps` and are never compared against `null`
in the code are plain values; props checked for `null`/truthiness keep
`Option`.  Event callbacks are external code: we only model whether a
callback is present and what truthiness it returns (`Option Bool`:
`none` = callback absent, `some b` = present and returns `b`). -/
structure Props where
  zoomEnabled : Bool
  panEnabled : Bool
  initialZoom : ℚ
  maxZoom : Option ℚ
  minZoom : Option ℚ
  zoomStep : Option ℚ
  pinchToZoomInSensitivity : Option ℚ
  pinchToZoomOutSensitivity : Option ℚ
  movementSensibility : Option ℚ
  bindToBorders : Bool
  contentWidth : Option ℚ
  contentHeight : Option ℚ
  panBoundaryPadding : Option ℚ
  disablePanOnInitialZoom : Bool
  disableMomentum : Bool
  staticPinPosition : Option Vec2D
  onZoomBefore : Option Bool
  onPanResponderMove : Option Bool
  onShiftingBefore : Option Bool
deriving Repr

/-- Mutable instance state of the component: the transform values
(`zoomLevel`, `__offsets`), the gesture bookkeeping fields, and the
measured layout stored in React state (`originalWidth` etc.). -/
structure ZState where
  zoomLevel : ℚ
  offsetX : ℚ
  offsetY : ℚ
  boundaryCrossedAnimInEffectX : Bool
  boundaryCrossedAnimInEffectY : Bool
  gestureType : Option GestureType
  gestureStarted : Bool
  lastGestureCenterPosition : Option Vec2D
  lastGestureTouchDistance : Option ℚ
  originalWidth : ℚ
  originalHeight : ℚ
  originalPageX : ℚ
  originalPageY : ℚ
deriving DecidableEq, Repr

/-- Deferred effects: animations started (they change the transform only
later, through animated-value listeners) and other framework calls a step
performs. -/
inductive Anim where
  /-- `getBoundaryCrossedAnim(this.panAnim[axis], boundOffset).start()` -/
  | boundaryCrossed (axis : Axis) (toValue : ℚ)
  /-- `getPanMomentumDecayAnim(this.panAnim, velocity).start()` -/
  | panMomentumDecay (vx vy : ℚ)
  /-- `getZoomToAnimation(this.zoomAnim, newZoomLevel).start()` -/
  | zoomToAnim (toValue : ℚ)
  /-- `this.panAnim.setValue({x, y})` -/
  | panAnimSet (x y : ℚ)
  /-- `this.zoomAnim.setValue(v)` -/
  | zoomAnimSet (v : ℚ)
  /-- `this.panAnim.stopAnimation()` / `this.zoomAnim.stopAnimation()` -/
  | stopAnimations
  /-- the `zoomAnim` listener `zoomTo` installs to keep a supplied zoom
  center fixed while the zoom animation runs -/
  | zoomCenteringListener (c : Vec2D)
  /-- tap bookkeeping of `_resolveAndHandleTap` (double-tap detection and
  the timers it arms); it never assigns the transform fields directly -/
  | tapResolution
deriving DecidableEq, Repr

/-- JavaScript truthiness of a nullable number: `null`/`undefined` and `0`
are falsy. -/
def optTruthy (o : Option ℚ) : Bool :=
  o.getD 0 != 0

/-- Model of `Number.prototype.toFixed(d)` string output: the sign character
together with the digits, i.e. a pair of the sign bit and `|q| * 10^d`
rounded to the nearest integer with ties away from zero (per ECMA-262, the
integer `n` closest to `|q| * 10^d`, the larger one on ties).  Two `toFixed`
strings are equal exactly when these pairs are equal. -/
def jsToFixed (d : ℕ) (q : ℚ) : Bool × ℤ :=
  (decide (q < 0), ⌊|q| * (10 : ℚ) ^ d + 1 / 2⌋)

/-- Modelled from the spec: `applyPanBoundariesToOffset` (imported from
`./helper/applyPanBoundariesToOffset`, not part of this snapshot) computes
the pan-boundary clamp the spec describes as "enforcing ... pan boundaries":
the offset is clamped so the scaled content, inflated by the boundary
padding, cannot be panned past the container; when the padded scaled content
fits inside the container the only admissible offset is the centered one. -/
def applyPanBoundariesToOffset (offset containerSize contentSize scale
    boundaryPadding : ℚ) : ℚ :=
  let scaledSize := contentSize * scale
  let maxOffset := max 0 ((scaledSize - containerSize) / 2 + boundaryPadding) / scale
  min maxOffset (max (-maxOffset) offset)

/-- Modelled from the spec: `calcNewScaledOffsetForZoomCentering` (imported
from `./helper`, not part of this snapshot) returns the new offset that
keeps the zoom-center point at the same screen position while the scale
changes from `oldScale` to `newScale`. -/
def calcNewScaledOffsetForZoomCentering (oldOffset containerSize oldScale
    newScale zoomCenter : ℚ) : ℚ :=
  let distToCenter := zoomCenter - containerSize / 2
  oldOffset - distToCenter * (1 / oldScale - 1 / newScale)

/-- Read an offset slot (`__getOffset`). -/
def getOffset (s : ZState) (axis : Axis) : ℚ :=
  match axis with
  | Axis.x => s.offsetX
  | Axis.y => s.offsetY

/-- The `boundaryCrossedAnimInEffect` flag of an axis. -/
def animInEffect (s : ZState) (axis : Axis) : Bool :=
  match axis with
  | Axis.x => s.boundaryCrossedAnimInEffectX
  | Axis.y => s.boundaryCrossedAnimInEffectY

/-- Store a raw value into an offset slot. -/
def writeOffset (s : ZState) (axis : Axis) (v : ℚ) : ZState :=
  match axis with
  | Axis.x => { s with offsetX := v }
  | Axis.y => { s with offsetY := v }

/-- Set the `boundaryCrossedAnimInEffect` flag of an axis. -/
def writeAnimInEffect (s : ZState) (axis : Axis) (b : Bool) : ZState :=
  match axis with
  | Axis.x => { s with boundaryCrossedAnimInEffectX := b }
  | Axis.y => { s with boundaryCrossedAnimInEffectY := b }

/-- `__setOffset(axis, offset)`: when `bindToBorders` is set and the sizes
and padding are available, the pan-boundary clamp of the offset is computed;
outside a gesture and outside a running boundary animation, a clamped value
that differs from the raw one (also after `toFixed(3)`) starts a
boundary-crossed animation toward the clamped value and leaves the stored
slot unchanged; in every other case the raw `offset` is stored. -/
def setOffset (p : Props) (s : ZState) (axis : Axis) (offset : ℚ) :
    ZState × List Anim :=
  if p.bindToBorders then
    let containerSize := match axis with
      | Axis.x => s.originalWidth
      | Axis.y => s.originalHeight
    let contentSize := match axis with
      | Axis.x => if optTruthy p.contentWidth then p.contentWidth.getD 0
                  else s.originalWidth
      | Axis.y => if optTruthy p.contentHeight then p.contentHeight.getD 0
                  else s.originalHeight
    let boundOffset :=
      if contentSize != 0 && containerSize != 0 && p.panBoundaryPadding.isSome
      then applyPanBoundariesToOffset offset containerSize contentSize
             s.zoomLevel (p.panBoundaryPadding.getD 0)
      else offset
    if s.gestureType = none ∧ animInEffect s axis = false then
      if boundOffset ≠ offset ∧ jsToFixed 3 boundOffset ≠ jsToFixed 3 offset
      then (writeAnimInEffect s axis true, [Anim.boundaryCrossed axis boundOffset])
      else (writeOffset s axis offset, [])
    else (writeOffset s axis offset, [])
  else (writeOffset s axis offset, [])

/-- Abstract per-event input of a gesture step: the `gestureState` fields the
handlers read, plus the values of the two event-geometry helpers
(`calcGestureTouchDistance`, `calcGestureCenterPoint`) that are computed from
the raw native event by helper code outside this snapshot; both can be
`null`. -/
structure GestureInput where
  numberActiveTouches : ℕ
  dx : ℚ
  dy : ℚ
  vx : ℚ
  vy : ℚ
  moveX : ℚ
  moveY : ℚ
  touchDistance : Option ℚ
  centerPoint : Option Vec2D
deriving Repr

/-- `_calcOffsetShiftSinceLastGestureState(gestureCenterPoint)`: when a last
center position exists and `movementSensibility` is truthy, the shift is the
center delta divided by the zoom level and the sensibility; the last center
position is always updated to the given point. -/
def calcOffsetShiftSinceLastGestureState (p : Props) (s : ZState)
    (gestureCenterPoint : Vec2D) : Option Vec2D × ZState :=
  let shift : Option Vec2D :=
    match s.lastGestureCenterPosition with
    | some last =>
      if optTruthy p.movementSensibility then
        let dx := gestureCenterPoint.x - last.x
        let dy := gestureCenterPoint.y - last.y
        some ⟨dx / s.zoomLevel / p.movementSensibility.getD 0,
              dy / s.zoomLevel / p.movementSensibility.getD 0⟩
      else none
    | none => none
  (shift, { s with lastGestureCenterPosition := some gestureCenterPoint })

/-- `_setNewOffsetPosition(newOffsetX, newOffsetY)`: unless `onShiftingBefore`
preempts, both offsets are set and the animated values synced to the stored
offsets and zoom level. -/
def setNewOffsetPosition (p : Props) (s : ZState)
    (newOffsetX newOffsetY : ℚ) : ZState × List Anim :=
  if p.onShiftingBefore = some true then (s, [])
  else
    let r1 := setOffset p s Axis.x newOffsetX
    let r2 := setOffset p r1.1 Axis.y newOffsetY
    (r2.1, r1.2 ++ r2.2 ++
      [Anim.panAnimSet r2.1.offsetX r2.1.offsetY, Anim.zoomAnimSet r2.1.zoomLevel])

/-- `_handleShifting(gestureState)`: skipped when panning is disabled or
`disablePanOnInitialZoom` holds at the initial zoom level; otherwise the
offset shift since the last gesture state is added to the offsets. -/
def handleShifting (p : Props) (s : ZState) (moveX moveY : ℚ) :
    ZState × List Anim :=
  if ¬p.panEnabled ∨ (p.disablePanOnInitialZoom ∧ s.zoomLevel = p.initialZoom)
  then (s, [])
  else
    let r := calcOffsetShiftSinceLastGestureState p s ⟨moveX, moveY⟩
    match r.1 with
    | none => (r.2, [])
    | some sh =>
      setNewOffsetPosition p r.2 (r.2.offsetX + sh.x) (r.2.offsetY + sh.y)

/-- `_handlePinching(e, gestureState)`: guards (`zoomEnabled`, `onZoomBefore`,
falsy distance, falsy last distance, null sensitivity, null center point,
zero measured size) return without touching the transform (only
`lastGestureTouchDistance` / `lastGestureCenterPosition` bookkeeping once
past the corresponding line); otherwise the new zoom level is the old one
scaled by the sensitivity-adjusted distance growth, clamped to
`maxZoom`/`minZoom` when non-null, the offsets are re-centered on the zoom
center and shifted by the center movement, and the state plus animated
values are updated. -/
def handlePinching (p : Props) (s : ZState) (g : GestureInput) :
    ZState × List Anim :=
  if ¬p.zoomEnabled then (s, [])
  else
    let distance := g.touchDistance
    if p.onZoomBefore = some true then (s, [])
    else if ¬optTruthy distance then (s, [])
    else if ¬optTruthy s.lastGestureTouchDistance then (s, [])
    else
      let d := distance.getD 0
      let dLast := s.lastGestureTouchDistance.getD 0
      let zoomGrowthFromLastGestureState := d / dLast
      let s1 := { s with lastGestureTouchDistance := some d }
      let pinchToZoomSensitivity :=
        if zoomGrowthFromLastGestureState < 1 then p.pinchToZoomOutSensitivity
        else p.pinchToZoomInSensitivity
      match pinchToZoomSensitivity with
      | none => (s1, [])
      | some sens =>
        let deltaGrowth := zoomGrowthFromLastGestureState - 1
        let deltaGrowthAdjustedBySensitivity := deltaGrowth * (1 - sens * 9 / 100)
        let newZoomLevel0 := s1.zoomLevel * (1 + deltaGrowthAdjustedBySensitivity)
        let newZoomLevel1 := match p.maxZoom with
          | some m => if newZoomLevel0 > m then m else newZoomLevel0
          | none => newZoomLevel0
        let newZoomLevel := match p.minZoom with
          | some m => if newZoomLevel1 < m then m else newZoomLevel1
          | none => newZoomLevel1
        match g.centerPoint with
        | none => (s1, [])
        | some gestureCenterPoint =>
          let zoomCenter := match p.staticPinPosition with
            | some pin => pin
            | none => ⟨gestureCenterPoint.x - s1.originalPageX,
                       gestureCenterPoint.y - s1.originalPageY⟩
          let oldScale := s1.zoomLevel
          let newScale := newZoomLevel
          if s1.originalHeight = 0 ∨ s1.originalWidth = 0 then (s1, [])
          else
            let offY := calcNewScaledOffsetForZoomCentering s1.offsetY
              s1.originalHeight oldScale newScale zoomCenter.y
            let offX := calcNewScaledOffsetForZoomCentering s1.offsetX
              s1.originalWidth oldScale newScale zoomCenter.x
            let r := calcOffsetShiftSinceLastGestureState p s1 gestureCenterPoint
            let shifted := match r.1 with
              | some sh => (offX + sh.x, offY + sh.y)
              | none => (offX, offY)
            let rx := setOffset p r.2 Axis.x shifted.1
            let ry := setOffset p rx.1 Axis.y shifted.2
            let s5 := { ry.1 with zoomLevel := newScale }
            (s5, rx.2 ++ ry.2 ++
              [Anim.panAnimSet s5.offsetX s5.offsetY, Anim.zoomAnimSet s5.zoomLevel])

/-- `_handlePanResponderGrant`: marks the gesture as started and stops the
running animations (long-press timer and callbacks are external). -/
def handlePanResponderGrant (s : ZState) : ZState × List Anim :=
  ({ s with gestureStarted := true }, [Anim.stopAnimations])

/-- `_handlePanResponderEnd(e, gestureState)`: resolves a tap when no gesture
type was set, clears the last gesture center, starts the pan momentum decay
animation with velocity `(vx / zoomLevel, vy / zoomLevel)` unless
`disableMomentum` holds or (`panEnabled` and a shift gesture and
`disablePanOnInitialZoom` at the initial zoom level), and clears the gesture
type and started flag. -/
def handlePanResponderEnd (p : Props) (s : ZState) (g : GestureInput) :
    ZState × List Anim :=
  let tapAnims := if s.gestureType = none then [Anim.tapResolution] else []
  let disableMomentum :=
    p.disableMomentum ∨
      (p.panEnabled ∧ s.gestureType = some GestureType.shift ∧
       p.disablePanOnInitialZoom ∧ s.zoomLevel = p.initialZoom)
  let momentumAnims :=
    if ¬disableMomentum then
      [Anim.panMomentumDecay (g.vx / s.zoomLevel) (g.vy / s.zoomLevel)]
    else []
  ({ s with lastGestureCenterPosition := none, gestureType := none,
            gestureStarted := false },
   tapAnims ++ momentumAnims)

/-- Result of a `_handlePanResponderMove` step: the new state, the effect
log, the handler's JS return value (`none` models `undefined`), and whether
the pinch / shift sub-handlers were invoked. -/
structure MoveResult where
  state : ZState
  anims : List Anim
  ret : Option Bool
  ranPinch : Bool
  ranShift : Bool
deriving Repr

/-- `_handlePanResponderMove(e, gestureState)`: an `onPanResponderMove` prop
returning truthy preempts with `false`; more than two active touches end a
started gesture and return `true`; otherwise an unstarted gesture is
granted, two touches refresh the pinch measurements when entering pinch
mode, set the gesture type to pinch and run `_handlePinching`; one touch
refreshes the center when entering shift mode and, when `|dx| > 2` or
`|dy| > 2`, sets the gesture type to shift and runs `_handleShifting`. -/
def handlePanResponderMove (p : Props) (s : ZState) (g : GestureInput) :
    MoveResult :=
  if p.onPanResponderMove = some true then ⟨s, [], some false, false, false⟩
  else if g.numberActiveTouches > 2 then
    if s.gestureStarted then
      let r := handlePanResponderEnd p s g
      ⟨r.1, r.2, some true, false, false⟩
    else ⟨s, [], some true, false, false⟩
  else
    let r0 := if ¬s.gestureStarted then handlePanResponderGrant s else (s, [])
    let s0 := r0.1
    if g.numberActiveTouches = 2 then
      let s1 := if s0.gestureType ≠ some GestureType.pinch then
          { s0 with lastGestureCenterPosition := g.centerPoint,
                    lastGestureTouchDistance := g.touchDistance }
        else s0
      let s2 := { s1 with gestureType := some GestureType.pinch }
      let r := handlePinching p s2 g
      ⟨r.1, r0.2 ++ r.2, none, true, false⟩
    else if g.numberActiveTouches = 1 then
      let s1 := if s0.gestureType ≠ some GestureType.shift then
          { s0 with lastGestureCenterPosition := g.centerPoint }
        else s0
      if |g.dx| > 2 ∨ |g.dy| > 2 then
        let s2 := { s1 with gestureType := some GestureType.shift }
        let r := handleShifting p s2 g.moveX g.moveY
        ⟨r.1, r0.2 ++ r.2, none, false, true⟩
      else ⟨s1, r0.2, none, false, false⟩
    else ⟨s0, r0.2, none, false, false⟩

/-- `_getNextZoomStep()`: `undefined` when `maxZoom` is null; `initialZoom`
when the current zoom level equals `maxZoom` after `toFixed(2)`;
`undefined` when `zoomStep` is null; otherwise `zoomLevel * (1 + zoomStep)`
capped at `maxZoom`. -/
def getNextZoomStep (p : Props) (zoomLevel : ℚ) : Option ℚ :=
  match p.maxZoom with
  | none => none
  | some maxZoom =>
    if jsToFixed 2 zoomLevel = jsToFixed 2 maxZoom then some p.initialZoom
    else
      match p.zoomStep with
      | none => none
      | some zoomStep =>
        let nextZoomStep := zoomLevel * (1 + zoomStep)
        if nextZoomStep > maxZoom then some maxZoom else some nextZoomStep

/-- `zoomTo(newZoomLevel, zoomCenter)`: returns `false` when zooming is
disabled or a truthy `maxZoom` / `minZoom` bound is exceeded; otherwise it
starts the zoom animation toward `newZoomLevel` (with a pan-centering
listener when a zoom center is supplied) and returns `true`.  The stored
transform fields are only changed later by the animation, never
synchronously. -/
def zoomTo (p : Props) (s : ZState) (newZoomLevel : ℚ)
    (zoomCenter : Option Vec2D) : Bool × ZState × List Anim :=
  if ¬p.zoomEnabled then (false, s, [])
  else if optTruthy p.maxZoom && decide (newZoomLevel > p.maxZoom.getD 0) then
    (false, s, [])
  else if optTruthy p.minZoom && decide (newZoomLevel < p.minZoom.getD 0) then
    (false, s, [])
  else
    let centering := match zoomCenter with
      | some c => [Anim.zoomCenteringListener c]
      | none => []
    (true, s, centering ++ [Anim.zoomToAnim newZoomLevel])

/-- `zoomBy(zoomLevelChange)`: a falsy change is replaced by
`zoomStep || 0`, then the call is delegated to
`zoomTo(zoomLevel + change)`. -/
def zoomBy (p : Props) (s : ZState) (zoomLevelChange : ℚ) :
    Bool × ZState × List Anim :=
  let change := if zoomLevelChange ≠ 0 then zoomLevelChange
    else if optTruthy p.zoomStep then p.zoomStep.getD 0 else 0
  zoomTo p s (s.zoomLevel + change) none

/-- Kinds of entries a style transform list can hold (the affine transform
vocabulary of the host framework). -/
inductive TransformEntry where
  | scale (v : ℚ)
  | translateX (v : ℚ)
  | translateY (v : ℚ)
  | rotate (deg : ℚ)
  | skewX (deg : ℚ)
  | skewY (deg : ℚ)
deriving DecidableEq, Repr

/-- Whether a transform entry is a rotation or skew component. -/
def TransformEntry.isRotationOrSkew : TransformEntry → Bool
  | rotate _ => true
  | skewX _ => true
  | skewY _ => true
  | _ => false

/-- `render()`: the zoom subject's style transform is
`[{ scale: this.zoomAnim }, ...this.panAnim.getTranslateTransform()]`,
where the framework's `Animated.ValueXY.getTranslateTransform()` yields
`[{ translateX: x }, { translateY: y }]`. -/
def renderTransform (zoomAnimValue panAnimX panAnimY : ℚ) :
    List TransformEntry :=
  [TransformEntry.scale zoomAnimValue,
   TransformEntry.translateX panAnimX,
   TransformEntry.translateY panAnimY]

/-! ## Helper lemmas -/

/-- `__setOffset` never changes the zoom level. -/
theorem setOffset_zoomLevel (p : Props) (s : ZState) (a : Axis) (v : ℚ) :
    (setOffset p s a v).1.zoomLevel = s.zoomLevel := by
  cases a <;> simp only [setOffset] <;> split_ifs <;> rfl

/-- `__setOffset` never changes the gesture type. -/
theorem setOffset_gestureType (p : Props) (s : ZState) (a : Axis) (v : ℚ) :
    (setOffset p s a v).1.gestureType = s.gestureType := by
  cases a <;> simp only [setOffset] <;> split_ifs <;> rfl

/-! ## Concrete sample inputs for witnesses -/

/-- A sample props record: the component's `defaultProps`, no callbacks. -/
def sampleProps : Props where
  zoomEnabled := true
  panEnabled := true
  initialZoom := 1
  maxZoom := some (3 / 2)
  minZoom := some (1 / 2)
  zoomStep := some (1 / 2)
  pinchToZoomInSensitivity := some 1
  pinchToZoomOutSensitivity := some 1
  movementSensibility := some 1
  bindToBorders := true
  contentWidth := none
  contentHeight := none
  panBoundaryPadding := some 0
  disablePanOnInitialZoom := false
  disableMomentum := false
  staticPinPosition := none
  onZoomBefore := none
  onPanResponderMove := none
  onShiftingBefore := none

/-- A sample measured state at rest. -/
def sampleState : ZState where
  zoomLevel := 1
  offsetX := 0
  offsetY := 0
  boundaryCrossedAnimInEffectX := false
  boundaryCrossedAnimInEffectY := false
  gestureType := none
  gestureStarted := false
  lastGestureCenterPosition := none
  lastGestureTouchDistance := some 150
  originalWidth := 100
  originalHeight := 100
  originalPageX := 0
  originalPageY := 0

/-- A sample gesture-state input. -/
def sampleGesture : GestureInput where
  numberActiveTouches := 1
  dx := 0
  dy := 0
  vx := 0
  vy := 0
  moveX := 0
  moveY := 0
  touchDistance := some 150
  centerPoint := some ⟨50, 50⟩

/-! ## Claim theorems -/

/-- C7: the transform applied to the child view is exactly one scale entry
driven by the zoom animated value followed by the two translation entries
derived from the pan animated value, and contains no rotation or skew
component. -/
theorem renderTransform_scale_then_translate (z x y : ℚ) :
    renderTransform z x y =
      [TransformEntry.scale z, TransformEntry.translateX x,
       TransformEntry.translateY y] ∧
    ∀ e ∈ renderTransform z x y, e.isRotationOrSkew = false := by
  refine ⟨rfl, ?_⟩
  intro e he
  simp only [renderTransform, List.mem_cons, List.mem_singleton,
    List.not_mem_nil, or_false] at he
  rcases he with h | h | h <;> subst h <;> rfl

/-- C3: `zoomTo` returns `false` — with the state left unchanged and no
animation started — exactly when zooming is disabled, or a truthy `maxZoom`
is exceeded from above, or a truthy `minZoom` is undercut from below; in
every other case it leaves the state unchanged, starts the zoom animation
toward `newZoomLevel` and returns `true`. -/
theorem zoomTo_false_iff (p : Props) (s : ZState) (n : ℚ) (c : Option Vec2D) :
    ((zoomTo p s n c).1 = false ↔
      p.zoomEnabled = false ∨
        (optTruthy p.maxZoom = true ∧ n > p.maxZoom.getD 0) ∨
        (optTruthy p.minZoom = true ∧ n < p.minZoom.getD 0)) ∧
    (zoomTo p s n c).2.1 = s ∧
    ((zoomTo p s n c).1 = false → (zoomTo p s n c).2.2 = []) ∧
    ((zoomTo p s n c).1 = true → Anim.zoomToAnim n ∈ (zoomTo p s n c).2.2) := by
  simp only [zoomTo]
  split_ifs with h1 h2 h3 <;> cases c <;> simp_all

/-- C3 witness: with the default props, `zoomTo 2` exceeds `maxZoom = 1.5`,
so it returns `false` and starts nothing. -/
theorem zoomTo_false_iff_witness :
    (zoomTo sampleProps sampleState 2 none).1 = false ∧
    (zoomTo sampleProps sampleState 2 none).2.2 = [] := by
  have h := zoomTo_false_iff sampleProps sampleState 2 none
  have hf : (zoomTo sampleProps sampleState 2 none).1 = false :=
    h.1.mpr (Or.inr (Or.inl (by norm_num [sampleProps, optTruthy])))
  exact ⟨hf, h.2.2.1 hf⟩

/-- C10: for a non-zero change, `zoomBy` coincides with `zoomTo` at
`zoomLevel + zoomLevelChange`; for a zero change it substitutes
`zoomStep || 0`, so `zoomBy 0` zooms by the zoom step. -/
theorem zoomBy_delegates_to_zoomTo (p : Props) (s : ZState) (c : ℚ) :
    (c ≠ 0 → zoomBy p s c = zoomTo p s (s.zoomLevel + c) none) ∧
    zoomBy p s 0 =
      zoomTo p s
        (s.zoomLevel + (if optTruthy p.zoomStep then p.zoomStep.getD 0 else 0))
        none := by
  constructor
  · intro h; simp [zoomBy, h]
  · simp [zoomBy]

/-- C10 witness: `zoomBy (1/4)` with the default props is
`zoomTo (1 + 1/4)`. -/
theorem zoomBy_delegates_to_zoomTo_witness :
    zoomBy sampleProps sampleState (1 / 4) =
      zoomTo sampleProps sampleState (sampleState.zoomLevel + 1 / 4) none :=
  (zoomBy_delegates_to_zoomTo sampleProps sampleState (1 / 4)).1 (by norm_num)

/-- C4: `_getNextZoomStep` is `undefined` when `maxZoom` is null, returns
`initialZoom` when the current zoom level equals `maxZoom` after rounding
both to two decimal places, is `undefined` when `zoomStep` is null, and
otherwise returns `zoomLevel * (1 + zoomStep)` capped at `maxZoom`. -/
theorem getNextZoomStep_spec (p : Props) (z : ℚ) :
    (p.maxZoom = none → getNextZoomStep p z = none) ∧
    ∀ M, p.maxZoom = some M →
      (jsToFixed 2 z = jsToFixed 2 M →
        getNextZoomStep p z = some p.initialZoom) ∧
      (jsToFixed 2 z ≠ jsToFixed 2 M →
        (p.zoomStep = none → getNextZoomStep p z = none) ∧
        ∀ st, p.zoomStep = some st →
          getNextZoomStep p z =
            some (if z * (1 + st) > M then M else z * (1 + st))) := by
  refine ⟨fun h => by simp [getNextZoomStep, h], fun M hM => ⟨?_, ?_⟩⟩
  · intro he; simp [getNextZoomStep, hM, he]
  · intro hne
    refine ⟨fun hz => by simp [getNextZoomStep, hM, hne, hz], fun st hst => ?_⟩
    simp only [getNextZoomStep, hM, hne, if_false, hst]
    split_ifs <;> simp_all

/-- C4 witness: with the default props (`maxZoom = 1.5`, `zoomStep = 0.5`)
and zoom level 1, the next double-tap zoom step is
`1 * (1 + 0.5) = 1.5`. -/
theorem getNextZoomStep_spec_witness :
    getNextZoomStep sampleProps 1 = some (3 / 2) := by
  have hne : jsToFixed 2 (1 : ℚ) ≠ jsToFixed 2 (3 / 2 : ℚ) := by
    simp only [jsToFixed, ne_eq, Prod.mk.injEq, not_and]
    intro _
    rw [show |(3 / 2 : ℚ)| = 3 / 2 from abs_of_pos (by norm_num)]
    norm_num
  have h := ((getNextZoomStep_spec sampleProps 1).2 (3 / 2) rfl).2 hne
  rw [h.2 (1 / 2) rfl]
  norm_num

/-- C6: `_handlePanResponderEnd` starts the pan momentum decay animation
with initial velocity `(vx / zoomLevel, vy / zoomLevel)` exactly unless
`disableMomentum` is set, or `panEnabled` holds, the gesture was a shift,
`disablePanOnInitialZoom` is set and the zoom level equals `initialZoom`. -/
theorem handlePanResponderEnd_momentum (p : Props) (s : ZState)
    (g : GestureInput) :
    Anim.panMomentumDecay (g.vx / s.zoomLevel) (g.vy / s.zoomLevel) ∈
        (handlePanResponderEnd p s g).2 ↔
      ¬(p.disableMomentum = true ∨
          (p.panEnabled = true ∧ s.gestureType = some GestureType.shift ∧
           p.disablePanOnInitialZoom = true ∧ s.zoomLevel = p.initialZoom)) := by
  simp only [handlePanResponderEnd]
  split_ifs with h1 h2 <;> simp_all

/-- `_calcOffsetShiftSinceLastGestureState` never changes the gesture
type. -/
theorem calcOffsetShift_gestureType (p : Props) (s : ZState) (c : Vec2D) :
    (calcOffsetShiftSinceLastGestureState p s c).2.gestureType =
      s.gestureType := rfl

/-- `_setNewOffsetPosition` never changes the gesture type. -/
theorem setNewOffsetPosition_gestureType (p : Props) (s : ZState)
    (nx ny : ℚ) :
    (setNewOffsetPosition p s nx ny).1.gestureType = s.gestureType := by
  unfold setNewOffsetPosition
  split_ifs
  · rfl
  · simp only [setOffset_gestureType]

/-- `_handleShifting` never changes the gesture type. -/
theorem handleShifting_gestureType (p : Props) (s : ZState) (mx my : ℚ) :
    (handleShifting p s mx my).1.gestureType = s.gestureType := by
  unfold handleShifting
  split_ifs
  · rfl
  · simp only []
    cases (calcOffsetShiftSinceLastGestureState p s ⟨mx, my⟩).1
    · rfl
    · rw [setNewOffsetPosition_gestureType]
      rfl

set_option maxHeartbeats 2000000 in
/-- `_handlePinching` never changes the gesture type. -/
theorem handlePinching_gestureType (p : Props) (s : ZState) (g : GestureInput) :
    (handlePinching p s g).1.gestureType = s.gestureType := by
  unfold handlePinching
  simp only []
  repeat' split
  all_goals simp only [setOffset_gestureType, calcOffsetShift_gestureType]

/-- C8: a move event reporting more than two active touches makes
`_handlePanResponderMove` end any started gesture and return `true` without
running pinch or shift handling, so the stored zoom level and offsets are
untouched by that event. -/
theorem handlePanResponderMove_tooManyTouches (p : Props) (s : ZState)
    (g : GestureInput) (hcb : p.onPanResponderMove ≠ some true)
    (ht : 2 < g.numberActiveTouches) :
    (handlePanResponderMove p s g).ret = some true ∧
    (handlePanResponderMove p s g).ranPinch = false ∧
    (handlePanResponderMove p s g).ranShift = false ∧
    (handlePanResponderMove p s g).state.zoomLevel = s.zoomLevel ∧
    (handlePanResponderMove p s g).state.offsetX = s.offsetX ∧
    (handlePanResponderMove p s g).state.offsetY = s.offsetY ∧
    (handlePanResponderMove p s g).state.gestureStarted = false ∧
    (s.gestureStarted = true →
      (handlePanResponderMove p s g).state.gestureType = none) := by
  simp only [handlePanResponderMove, handlePanResponderEnd, if_neg hcb,
    if_pos ht]
  by_cases hgs : s.gestureStarted = true <;> simp [hgs]

/-- C8 witness: a three-touch move event during a started shift gesture. -/
theorem handlePanResponderMove_tooManyTouches_witness :
    (handlePanResponderMove sampleProps
        { sampleState with gestureStarted := true,
                           gestureType := some GestureType.shift }
        { sampleGesture with numberActiveTouches := 3 }).ret = some true ∧
    (handlePanResponderMove sampleProps
        { sampleState with gestureStarted := true,
                           gestureType := some GestureType.shift }
        { sampleGesture with numberActiveTouches := 3 }).state.gestureType =
      none := by
  have h := handlePanResponderMove_tooManyTouches sampleProps
    { sampleState with gestureStarted := true,
                       gestureType := some GestureType.shift }
    { sampleGesture with numberActiveTouches := 3 }
    (by simp [sampleProps]) (by norm_num [sampleGesture])
  exact ⟨h.1, h.2.2.2.2.2.2.2 rfl⟩

/-- C5: `_handlePanResponderMove` classifies a move by the number of active
touches: two touches set the gesture type to pinch and run pinch handling;
one touch sets the gesture type to shift and runs shift handling exactly
when `|dx| > 2` or `|dy| > 2`; a one-touch move at or below that threshold
leaves the gesture type and the stored transform unchanged and runs
neither handler. -/
theorem handlePanResponderMove_classification (p : Props) (s : ZState)
    (g : GestureInput) (hcb : p.onPanResponderMove ≠ some true) :
    (g.numberActiveTouches = 2 →
      (handlePanResponderMove p s g).state.gestureType =
          some GestureType.pinch ∧
      (handlePanResponderMove p s g).ranPinch = true) ∧
    (g.numberActiveTouches = 1 → (2 < |g.dx| ∨ 2 < |g.dy|) →
      (handlePanResponderMove p s g).state.gestureType =
          some GestureType.shift ∧
      (handlePanResponderMove p s g).ranShift = true) ∧
    (g.numberActiveTouches = 1 → |g.dx| ≤ 2 → |g.dy| ≤ 2 →
      (handlePanResponderMove p s g).state.gestureType = s.gestureType ∧
      (handlePanResponderMove p s g).state.zoomLevel = s.zoomLevel ∧
      (handlePanResponderMove p s g).state.offsetX = s.offsetX ∧
      (handlePanResponderMove p s g).state.offsetY = s.offsetY ∧
      (handlePanResponderMove p s g).ranPinch = false ∧
      (handlePanResponderMove p s g).ranShift = false) := by
  refine ⟨?_, ?_, ?_⟩
  · intro h2
    have hng : ¬ 2 < g.numberActiveTouches := by omega
    simp [handlePanResponderMove, handlePanResponderGrant, if_neg hcb,
      if_neg hng, h2, handlePinching_gestureType]
  · intro h1 hsh
    have hng : ¬ 2 < g.numberActiveTouches := by omega
    have hn2 : ¬ g.numberActiveTouches = 2 := by omega
    simp [handlePanResponderMove, handlePanResponderGrant, if_neg hcb,
      if_neg hng, if_neg hn2, h1, if_pos hsh, handleShifting_gestureType]
  · intro h1 hdx hdy
    have hng : ¬ 2 < g.numberActiveTouches := by omega
    have hn2 : ¬ g.numberActiveTouches = 2 := by omega
    have hns : ¬ (2 < |g.dx| ∨ 2 < |g.dy|) := by
      push_neg
      exact ⟨hdx, hdy⟩
    simp only [handlePanResponderMove, handlePanResponderGrant, if_neg hcb,
      if_neg hng, if_neg hn2, h1, if_neg hns]
    split_ifs <;> simp_all

/-- C5 witness: a one-touch move with `dx = 10` exceeds the threshold and
switches the gesture type to shift, running shift handling. -/
theorem handlePanResponderMove_classification_witness :
    (handlePanResponderMove sampleProps sampleState
        { sampleGesture with dx := 10 }).state.gestureType =
      some GestureType.shift ∧
    (handlePanResponderMove sampleProps sampleState
        { sampleGesture with dx := 10 }).ranShift = true := by
  have hdx : (2 : ℚ) < |({ sampleGesture with dx := 10 } : GestureInput).dx| := by
    have he : ({ sampleGesture with dx := 10 } : GestureInput).dx = 10 := rfl
    rw [he, abs_of_pos (by norm_num : (0 : ℚ) < 10)]
    norm_num
  exact (handlePanResponderMove_classification sampleProps sampleState
    { sampleGesture with dx := 10 } (by simp [sampleProps])).2.1 rfl
    (Or.inl hdx)

set_option maxHeartbeats 2000000 in
/-- C1: a pinch step with both zoom bound props set (and the bounds
ordered) either leaves the stored zoom level unchanged (an early-return
branch) or stores a zoom level clamped into `[minZoom, maxZoom]`. -/
theorem handlePinching_clamps_zoom (p : Props) (s : ZState) (g : GestureInput)
    (M m : ℚ) (hmax : p.maxZoom = some M) (hmin : p.minZoom = some m)
    (hmm : m ≤ M) :
    (handlePinching p s g).1.zoomLevel = s.zoomLevel ∨
      (m ≤ (handlePinching p s g).1.zoomLevel ∧
        (handlePinching p s g).1.zoomLevel ≤ M) := by
  unfold handlePinching
  simp only [hmax, hmin]
  repeat' split
  all_goals try (exact Or.inl rfl)
  all_goals right
  all_goals constructor <;> simp only [setOffset_zoomLevel] <;> linarith

/-- C1 witness: a pinch step at the default props (`minZoom = 0.5 ≤
maxZoom = 1.5`). -/
theorem handlePinching_clamps_zoom_witness :
    (handlePinching sampleProps sampleState sampleGesture).1.zoomLevel =
        sampleState.zoomLevel ∨
      (1 / 2 ≤ (handlePinching sampleProps sampleState
          sampleGesture).1.zoomLevel ∧
        (handlePinching sampleProps sampleState sampleGesture).1.zoomLevel ≤
          3 / 2) :=
  handlePinching_clamps_zoom sampleProps sampleState sampleGesture (3 / 2)
    (1 / 2) rfl rfl (by norm_num)

set_option maxHeartbeats 2000000 in
/-- C9: a pinch step that passes every guard, with no zoom bound set,
stores the zoom level `zoomLevel * (1 + (d/dLast - 1) * (1 - 9*s/100))`,
where `d` is the current touch distance, `dLast` the previous one and `s`
the sensitivity selected by the direction of the distance change
(`pinchToZoomOutSensitivity` when `d/dLast < 1`, else
`pinchToZoomInSensitivity`); with `s = 0` the distance growth applies
without resistance. -/
theorem handlePinching_growth_formula (p : Props) (s : ZState)
    (g : GestureInput) (d dl sv : ℚ) (c : Vec2D)
    (hz : p.zoomEnabled = true) (hcb : p.onZoomBefore ≠ some true)
    (hd : g.touchDistance = some d) (hd0 : d ≠ 0)
    (hl : s.lastGestureTouchDistance = some dl) (hl0 : dl ≠ 0)
    (hsens : (if d / dl < 1 then p.pinchToZoomOutSensitivity
              else p.pinchToZoomInSensitivity) = some sv)
    (hmax : p.maxZoom = none) (hmin : p.minZoom = none)
    (hc : g.centerPoint = some c)
    (hH : s.originalHeight ≠ 0) (hW : s.originalWidth ≠ 0) :
    (handlePinching p s g).1.zoomLevel =
        s.zoomLevel * (1 + (d / dl - 1) * (1 - 9 * sv / 100)) ∧
      (sv = 0 →
        (handlePinching p s g).1.zoomLevel = s.zoomLevel * (d / dl)) := by
  have c1 : (¬p.zoomEnabled = true) = False := by simp [hz]
  have c2 : (p.onZoomBefore = some true) = False := eq_false hcb
  have c3 : (¬optTruthy (some d) = true) = False := by
    simp [optTruthy, hd0]
  have c4 : (¬optTruthy (some dl) = true) = False := by
    simp [optTruthy, hl0]
  have c5 : (s.originalHeight = 0 ∨ s.originalWidth = 0) = False := by
    simp [hH, hW]
  have key : (handlePinching p s g).1.zoomLevel =
      s.zoomLevel * (1 + (d / dl - 1) * (1 - sv * 9 / 100)) := by
    unfold handlePinching
    simp only [hd, hl, Option.getD_some, c1, c2, c3, c4, c5, if_false,
      hsens, hmax, hmin, hc]
  refine ⟨by rw [key]; ring, fun h0 => by rw [key, h0]; ring⟩

/-- C9 witness: distance growth from 150 to 300 with sensitivity 1 and no
zoom bounds stores `1 * (1 + (2 - 1) * (1 - 9/100)) = 191/100`. -/
theorem handlePinching_growth_formula_witness :
    (handlePinching { sampleProps with maxZoom := none, minZoom := none }
        sampleState
        { sampleGesture with touchDistance := some 300 }).1.zoomLevel =
      sampleState.zoomLevel * (1 + (300 / 150 - 1) * (1 - 9 * 1 / 100)) :=
  (handlePinching_growth_formula
    { sampleProps with maxZoom := none, minZoom := none } sampleState
    { sampleGesture with touchDistance := some 300 } 300 150 1 ⟨50, 50⟩
    rfl (by simp [sampleProps]) rfl (by norm_num) rfl (by norm_num)
    (by norm_num [sampleProps]) rfl rfl rfl
    (by norm_num [sampleState]) (by norm_num [sampleState])).1

/-- C2 counterexample: during a pinch gesture (`gestureType` set),
`__setOffset` stores the raw offset 50 even though the pan-boundary clamp
of 50 in this configuration (container 100, content 100, zoom 1,
padding 0) is 0 — the stored offset does not lie within the pan
boundaries. -/
theorem setOffset_stores_out_of_bounds :
    (setOffset sampleProps
        { sampleState with gestureType := some GestureType.pinch }
        Axis.x 50).1.offsetX = 50 ∧
    applyPanBoundariesToOffset 50 100 100 1 0 = 0 ∧
    applyPanBoundariesToOffset
        ((setOffset sampleProps
            { sampleState with gestureType := some GestureType.pinch }
            Axis.x 50).1.offsetX) 100 100 1 0 ≠
      (setOffset sampleProps
          { sampleState with gestureType := some GestureType.pinch }
          Axis.x 50).1.offsetX := by
  norm_num [setOffset, sampleProps, sampleState, applyPanBoundariesToOffset,
    optTruthy, animInEffect, writeOffset]
  have hpn : ¬(some GestureType.pinch = (none : Option GestureType)) := by
    simp
  rw [if_neg hpn]
  norm_num

/-- C2 amended: every `__setOffset` call either stores the raw (unclamped)
offset, or — only outside a gesture and outside a running boundary
animation — leaves the stored offset unchanged and starts a
boundary-crossed animation toward the pan-boundary clamp of the raw
offset; the clamp is never applied to the stored value itself. -/
theorem setOffset_raw_or_boundary_anim (p : Props) (s : ZState) (a : Axis)
    (v : ℚ) :
    (getOffset (setOffset p s a v).1 a = v ∧ (setOffset p s a v).2 = []) ∨
    (getOffset (setOffset p s a v).1 a = getOffset s a ∧
      s.gestureType = none ∧ animInEffect s a = false ∧
      ∃ b, (setOffset p s a v).2 = [Anim.boundaryCrossed a b] ∧ b ≠ v ∧
        b = applyPanBoundariesToOffset v
          (match a with
            | Axis.x => s.originalWidth
            | Axis.y => s.originalHeight)
          (match a with
            | Axis.x => if optTruthy p.contentWidth then p.contentWidth.getD 0
                        else s.originalWidth
            | Axis.y => if optTruthy p.contentHeight then p.contentHeight.getD 0
                        else s.originalHeight)
          s.zoomLevel (p.panBoundaryPadding.getD 0)) := by
  cases a <;>
    simp only [setOffset, getOffset, animInEffect, writeOffset,
      writeAnimInEffect] <;>
    split_ifs <;>
    simp_all

/-- C6 witness: at rest (no shift gesture recorded) with the default props,
ending the gesture starts the momentum decay animation with velocity
`(vx / zoomLevel, vy / zoomLevel)`. -/
theorem handlePanResponderEnd_momentum_witness :
    Anim.panMomentumDecay
        (sampleGesture.vx / sampleState.zoomLevel)
        (sampleGesture.vy / sampleState.zoomLevel) ∈
      (handlePanResponderEnd sampleProps sampleState sampleGesture).2 :=
  (handlePanResponderEnd_momentum sampleProps sampleState
    sampleGesture).mpr (by simp [sampleProps, sampleState])

/-- C7 witness: the transform at zoom 2 and pan (3, 4), with its scale
entry checked to be no rotation or skew. -/
theorem renderTransform_scale_then_translate_witness :
    renderTransform 2 3 4 =
      [TransformEntry.scale 2, TransformEntry.translateX 3,
       TransformEntry.translateY 4] ∧
    TransformEntry.isRotationOrSkew (TransformEntry.scale 2) = false :=
  ⟨(renderTransform_scale_then_translate 2 3 4).1,
   (renderTransform_scale_then_translate 2 3 4).2 (TransformEntry.scale 2)
     (by simp [renderTransform])⟩
